import Mathlib

/-
Verification of the responsive layout engine in `src/utils/responsive.js`.

The JavaScript module is shallowly embedded as follows.

* A JavaScript number, where only finite values can arise, is a rational
  number `ℚ`; where the NaN produced by string coercion matters (the `wp`
  percentage pipeline) we use `JSNum`, which is a rational or NaN.
* `Dimensions.get('window')` is modelled by passing the current `Viewport`
  explicitly; `Platform.OS === 'ios'` is a `Bool` parameter `ios`;
  `PixelRatio.roundToNearestPixel` is modelled from its React Native
  implementation `Math.round(value * ratio) / ratio`, parameterised by the
  device pixel ratio `pr`.
* `Math.round(x)` is `⌊x + 1/2⌋` (JavaScript rounds half toward +∞).
* The JS falsy test in `width || screenWidth` is explicit: a `0` override
  falls back to the screen width.
-/

/-- The viewport: `Dimensions.get('window')`, a width/height pair of
logical-pixel measurements. -/
structure Viewport where
  width : ℚ
  height : ℚ
deriving DecidableEq

/-- JavaScript `Math.round` on a rational: round half toward positive
infinity, i.e. `⌊x + 1/2⌋`.  Stated with `Rat.floor` so that it is
kernel-computable. -/
def jsRound (x : ℚ) : Int := (x + 1/2).floor

/-- `Rat.floor` agrees with the `Int.floor` of the `FloorRing` instance. -/
theorem jsRound_eq_floor (x : ℚ) : jsRound x = ⌊x + 1/2⌋ := by
  rw [jsRound, Rat.floor_def', ← Rat.floor_def]

/-- `PixelRatio.roundToNearestPixel`, modelled from its React Native
implementation `Math.round(layoutSize * ratio) / ratio`, where `pr` is the
device pixel ratio (`PixelRatio.get()`). -/
def roundToNearestPixel (pr : ℚ) (layoutSize : ℚ) : ℚ :=
  (jsRound (layoutSize * pr) : ℚ) / pr

/-- A JavaScript number that is either an ordinary (finite) number or NaN. -/
inductive JSNum where
  | num (q : ℚ)
  | nan
deriving DecidableEq

/-- JavaScript multiplication: NaN is absorbing. -/
def JSNum.mul : JSNum → JSNum → JSNum
  | .num a, .num b => .num (a * b)
  | _, _ => .nan

/-- JavaScript division by a nonzero numeric literal (the module only ever
divides by the literal `100`): NaN propagates. -/
def JSNum.divNum : JSNum → ℚ → JSNum
  | .num a, c => .num (a / c)
  | .nan, _ => .nan

/-- `PixelRatio.roundToNearestPixel` lifted to `JSNum`: NaN propagates
(`Math.round(NaN * r) / r` is NaN). -/
def roundToNearestPixelJS (pr : ℚ) : JSNum → JSNum
  | .num q => .num (roundToNearestPixel pr q)
  | .nan => .nan

/-- JavaScript `Math.round` lifted to `JSNum`: `Math.round(NaN)` is NaN. -/
def JSNum.mathRound : JSNum → JSNum
  | .num q => .num (jsRound q)
  | .nan => .nan

/-- A JavaScript value passed as the `percentage` argument of `wp`/`hp`:
either a number or a string (the source passes strings such as `'4%'`). -/
inductive JSVal where
  | num (q : ℚ)
  | str (s : String)

/-- Numeric value of an all-digit character list, most significant first. -/
def digitsToNat (l : List Char) : Nat :=
  l.foldl (fun acc c => acc * 10 + (c.toNat - 48)) 0

/-- JavaScript `ToNumber` on a string, restricted to the string shapes this
module passes to `wp`: a nonempty all-digit string parses as the
corresponding integer, and any other string — in particular the
percent-suffixed strings `'1%'`, `'4%'`, … appearing in the source —
coerces to NaN. -/
def jsStringToNumber (s : String) : JSNum :=
  match !s.data.isEmpty && s.data.all Char.isDigit with
  | true => .num (digitsToNat s.data)
  | false => .nan

/-- JavaScript `ToNumber` coercion applied by the arithmetic in `wp`. -/
def jsToNumber : JSVal → JSNum
  | .num q => .num q
  | .str s => jsStringToNumber s

/-- `wp(percentage)`: `Math.round(roundToNearestPixel((percentage * width) / 100))`. -/
def wp (pr : ℚ) (vp : Viewport) (percentage : JSVal) : JSNum :=
  JSNum.mathRound
    (roundToNearestPixelJS pr (((jsToNumber percentage).mul (.num vp.width)).divNum 100))

/-- `hp(percentage)`: `Math.round(roundToNearestPixel((percentage * height) / 100))`. -/
def hp (pr : ℚ) (vp : Viewport) (percentage : JSVal) : JSNum :=
  JSNum.mathRound
    (roundToNearestPixelJS pr (((jsToNumber percentage).mul (.num vp.height)).divNum 100))

/-- `rf(size)`: scale by `width / 640`, round to the nearest device pixel,
`Math.round`, and on the non-iOS platform subtract 2. -/
def rf (pr : ℚ) (ios : Bool) (vp : Viewport) (size : ℚ) : Int :=
  let scale := vp.width / 640
  let newSize := size * scale
  if ios then jsRound (roundToNearestPixel pr newSize)
  else jsRound (roundToNearestPixel pr newSize) - 2

/-- The `breakpoints` object of the source. -/
structure Breakpoints where
  small : ℚ
  medium : ℚ
  large : ℚ
  tablet : ℚ
  largeTablet : ℚ

/-- `breakpoints = { small: 360, medium: 400, large: 500, tablet: 768, largeTablet: 1024 }`. -/
def breakpoints : Breakpoints :=
  { small := 360, medium := 400, large := 500, tablet := 768, largeTablet := 1024 }

/-- The five device-class strings returned by `getDeviceType`. -/
inductive DeviceType where
  | smallPhone
  | mediumPhone
  | largePhone
  | tablet
  | largeTablet
deriving DecidableEq

/-- The JavaScript falsy fallback `width || screenWidth`: a `null` (here
`none`) or `0` override falls back to the screen width. -/
def jsOrWidth (width : Option ℚ) (screenWidth : ℚ) : ℚ :=
  match width with
  | none => screenWidth
  | some v => if v = 0 then screenWidth else v

/-- `getDeviceType(width)`: classify by the smaller of current width and
screen height against the tablet breakpoint, then by the current width
against the phone (360, 400) or tablet (1024) sub-thresholds. -/
def getDeviceType (vp : Viewport) (width : Option ℚ) : DeviceType :=
  let currentWidth := jsOrWidth width vp.width
  let minDimension := min currentWidth vp.height
  if minDimension < breakpoints.tablet then
    if currentWidth < breakpoints.small then .smallPhone
    else if currentWidth < breakpoints.medium then .mediumPhone
    else .largePhone
  else
    if currentWidth < breakpoints.largeTablet then .tablet
    else .largeTablet

/-- The `switch (deviceType)` statement of `getGridColumns`, as a function
of the device type and the computed `isLandscape` flag. -/
def gridColumnsFor : DeviceType → Bool → Int
  | .smallPhone, l => if l then 2 else 1
  | .mediumPhone, l => if l then 2 else 1
  | .largePhone, l => if l then 2 else 1
  | .tablet, l => if l then 4 else 2
  | .largeTablet, l => if l then 5 else 3

/-- `getGridColumns(width)`: resolve the width override, compute
`isLandscape = currentWidth > screenHeight`, classify via
`getDeviceType(currentWidth)`, and look up the column count. -/
def getGridColumns (vp : Viewport) (width : Option ℚ) : Int :=
  let currentWidth := jsOrWidth width vp.width
  let isLandscape : Bool := decide (vp.height < currentWidth)
  gridColumnsFor (getDeviceType vp (some currentWidth)) isLandscape

/-- `isTablet(width)`. -/
def isTablet (vp : Viewport) (width : Option ℚ) : Bool :=
  let deviceType := getDeviceType vp width
  decide (deviceType = .tablet) || decide (deviceType = .largeTablet)

/-- `getAdaptivePadding()`: device-type-keyed `wp` percentage strings,
`largeTablet` falling to the `default` arm. -/
def getAdaptivePadding (pr : ℚ) (vp : Viewport) : JSNum :=
  match getDeviceType vp none with
  | .smallPhone => wp pr vp (.str "4%")
  | .mediumPhone => wp pr vp (.str "4%")
  | .largePhone => wp pr vp (.str "6%")
  | .tablet => wp pr vp (.str "8%")
  | .largeTablet => wp pr vp (.str "10%")

/-- The shape of the module-level `spacing` object. -/
structure Spacing where
  xs : JSNum
  sm : JSNum
  md : JSNum
  lg : JSNum
  xl : JSNum
deriving DecidableEq

/-- The module-level `spacing` object as computed from a given viewport:
`{ xs: wp('1%'), sm: wp('2%'), md: wp('4%'), lg: wp('6%'), xl: wp('8%') }`. -/
def spacing (pr : ℚ) (vp : Viewport) : Spacing :=
  { xs := wp pr vp (.str "1%")
    sm := wp pr vp (.str "2%")
    md := wp pr vp (.str "4%")
    lg := wp pr vp (.str "6%")
    xl := wp pr vp (.str "8%") }

/-- The shape of the module-level `typography` object. -/
structure Typography where
  h1 : Int
  h2 : Int
  h3 : Int
  h4 : Int
  body : Int
  caption : Int
  small : Int
deriving DecidableEq

/-- The module-level `typography` object as computed from a given viewport:
`{ h1: rf(28), h2: rf(24), h3: rf(20), h4: rf(18), body: rf(16),
caption: rf(14), small: rf(12) }`. -/
def typography (pr : ℚ) (ios : Bool) (vp : Viewport) : Typography :=
  { h1 := rf pr ios vp 28
    h2 := rf pr ios vp 24
    h3 := rf pr ios vp 20
    h4 := rf pr ios vp 18
    body := rf pr ios vp 16
    caption := rf pr ios vp 14
    small := rf pr ios vp 12 }

/-- The observable module state: the platform-owned current dimensions and
the two module-level constant objects. -/
structure ModuleState where
  dims : Viewport
  spacing : Spacing
  typography : Typography

/-- Module load: `spacing` and `typography` are initialised from the
viewport current at import time. -/
def loadModule (pr : ℚ) (ios : Bool) (initDims : Viewport) : ModuleState :=
  { dims := initDims
    spacing := spacing pr initDims
    typography := typography pr ios initDims }

/-- A `Dimensions` change event: the platform replaces the current window
dimensions.  The source contains no assignment to the module-level
`spacing`/`typography` constants (its change listener only re-reads the
dimensions and invokes the consumer callback), so a change touches only
`dims`. -/
def dimensionsChange (s : ModuleState) (newDims : Viewport) : ModuleState :=
  { s with dims := newDims }

/-! ## Helper lemmas -/

/-- Passing the already-resolved current width back into `getDeviceType`
(as `getGridColumns` does) classifies exactly as calling it with no
override. -/
theorem getDeviceType_some_self (w h : ℚ) :
    getDeviceType ⟨w, h⟩ (some w) = getDeviceType ⟨w, h⟩ none := by
  simp [getDeviceType, jsOrWidth]

/-- Closed form of the classifier with no width override. -/
theorem getDeviceType_none_eq (w h : ℚ) :
    getDeviceType ⟨w, h⟩ none =
      if min w h < 768 then
        (if w < 360 then .smallPhone else if w < 400 then .mediumPhone else .largePhone)
      else if w < 1024 then .tablet else .largeTablet := rfl

/-- The grid lookup table stated from the spec's words (spec §4.2): one of
the two definitions compared by the refinement claim C1. -/
def specGridTable : DeviceType → Bool → Int
  | .smallPhone, landscape => if landscape then 2 else 1
  | .mediumPhone, landscape => if landscape then 2 else 1
  | .largePhone, landscape => if landscape then 2 else 1
  | .tablet, landscape => if landscape then 4 else 2
  | .largeTablet, landscape => if landscape then 5 else 3

/-- The source's switch agrees with the spec's table. -/
theorem gridColumnsFor_eq_spec (d : DeviceType) (b : Bool) :
    gridColumnsFor d b = specGridTable d b := by
  cases d <;> cases b <;> rfl

/-- The device-class order `smallPhone → mediumPhone → largePhone → tablet
→ largeTablet` used by the spec's monotonicity property. -/
def deviceRank : DeviceType → Nat
  | .smallPhone => 0
  | .mediumPhone => 1
  | .largePhone => 2
  | .tablet => 3
  | .largeTablet => 4

/-- A dimensions-change event never touches the module-level `spacing` and
`typography` objects, over any sequence of events. -/
theorem foldl_dimensionsChange (s : ModuleState) (l : List Viewport) :
    (l.foldl dimensionsChange s).spacing = s.spacing ∧
    (l.foldl dimensionsChange s).typography = s.typography := by
  induction l generalizing s with
  | nil => exact ⟨rfl, rfl⟩
  | cons c cs ih => exact ih _

/-- Round-tripping an integer through `roundToNearestPixel` and
`Math.round` is the identity whenever the pixel ratio is at least 1. -/
theorem jsRound_intCast_rtp (pr : ℚ) (hpr : 1 ≤ pr) (n : ℤ) :
    jsRound (roundToNearestPixel pr (n : ℚ)) = n := by
  have hpr0 : (0 : ℚ) < pr := lt_of_lt_of_le one_pos hpr
  unfold roundToNearestPixel
  rw [jsRound_eq_floor]
  set k : ℤ := jsRound ((n : ℚ) * pr) with hkdef
  have hk1 : (k : ℚ) ≤ (n : ℚ) * pr + 1 / 2 := by
    rw [hkdef, jsRound_eq_floor]
    exact Int.floor_le _
  have hk2 : (n : ℚ) * pr + 1 / 2 < (k : ℚ) + 1 := by
    rw [hkdef, jsRound_eq_floor]
    exact_mod_cast Int.lt_floor_add_one ((n : ℚ) * pr + 1 / 2)
  rw [Int.floor_eq_iff]
  constructor
  · have h3 : ((n : ℚ) - 1 / 2) * pr ≤ (k : ℚ) := by
      have hexp : ((n : ℚ) - 1 / 2) * pr = (n : ℚ) * pr - pr / 2 := by ring
      have hhalf : (1 : ℚ) / 2 ≤ pr / 2 := by linarith
      linarith
    have h4 : (n : ℚ) - 1 / 2 ≤ (k : ℚ) / pr := (le_div_iff₀ hpr0).mpr h3
    linarith
  · have h5 : (k : ℚ) < ((n : ℚ) + 1 / 2) * pr := by
      rcases eq_or_lt_of_le hpr with heq | hlt
      · rw [← heq] at hk1 ⊢
        have hklt : (k : ℚ) < (n : ℚ) + 1 := by linarith
        have hkle : k ≤ n := by
          have : k < n + 1 := by exact_mod_cast hklt
          omega
        have hkq : (k : ℚ) ≤ (n : ℚ) := by exact_mod_cast hkle
        linarith
      · have hexp : ((n : ℚ) + 1 / 2) * pr = (n : ℚ) * pr + pr / 2 := by ring
        linarith
    have h6 : (k : ℚ) / pr < (n : ℚ) + 1 / 2 := (div_lt_iff₀ hpr0).mpr h5
    linarith

/-- `Math.round 0 = 0`. -/
theorem jsRound_zero : jsRound 0 = 0 := by
  rw [jsRound_eq_floor, zero_add]
  refine Int.floor_eq_iff.mpr ⟨by norm_num, by norm_num⟩

/-- `Math.round` of a nonpositive value is nonpositive. -/
theorem jsRound_nonpos {x : ℚ} (hx : x ≤ 0) : jsRound x ≤ 0 := by
  rw [jsRound_eq_floor]
  have hlt : ⌊x + 1 / 2⌋ < 1 := by
    rw [Int.floor_lt]
    push_cast
    linarith
  omega

/-- `roundToNearestPixel` fixes 0. -/
theorem rtp_zero (pr : ℚ) : roundToNearestPixel pr 0 = 0 := by
  unfold roundToNearestPixel
  rw [zero_mul, jsRound_zero]
  simp

/-- `roundToNearestPixel` preserves nonpositivity for a positive ratio. -/
theorem rtp_nonpos (pr : ℚ) (hpr : 0 < pr) {x : ℚ} (hx : x ≤ 0) :
    roundToNearestPixel pr x ≤ 0 := by
  unfold roundToNearestPixel
  have hk : jsRound (x * pr) ≤ 0 := jsRound_nonpos (mul_nonpos_of_nonpos_of_nonneg hx hpr.le)
  have hkq : (jsRound (x * pr) : ℚ) ≤ 0 := by exact_mod_cast hk
  exact div_nonpos_iff.mpr (Or.inr ⟨hkq, hpr.le⟩)

/-! ## Claim theorems -/

/-- Claim C1: for every viewport with positive dimensions, `getGridColumns`
returns exactly the table value determined by device class and orientation
(landscape iff width > height); in particular `{width:800, height:1024}`
yields 2 columns and `{width:1024, height:800}` yields 5. -/
theorem c1_getGridColumns_matches_table :
    (∀ w h : ℚ, 0 < w → 0 < h →
      getGridColumns ⟨w, h⟩ none = specGridTable (getDeviceType ⟨w, h⟩ none) (decide (h < w)))
    ∧ getGridColumns ⟨800, 1024⟩ none = 2 ∧ getGridColumns ⟨1024, 800⟩ none = 5 := by
  refine ⟨fun w h _ _ => ?_, by decide, by decide⟩
  have h1 : getGridColumns ⟨w, h⟩ none
      = gridColumnsFor (getDeviceType ⟨w, h⟩ (some w)) (decide (h < w)) := rfl
  rw [h1, getDeviceType_some_self, gridColumnsFor_eq_spec]

/-- Witness for C1 at the concrete viewport 800 × 1024. -/
theorem c1_getGridColumns_matches_table_witness :
    (0 : ℚ) < 800 ∧ (0 : ℚ) < 1024 ∧
    getGridColumns ⟨800, 1024⟩ none
      = specGridTable (getDeviceType ⟨800, 1024⟩ none) (decide ((1024 : ℚ) < 800)) :=
  ⟨by norm_num, by norm_num,
    c1_getGridColumns_matches_table.1 800 1024 (by norm_num) (by norm_num)⟩

/-- Claim C2: whenever `min(w, h) ≥ 768`, `getDeviceType` classifies the
viewport as `tablet` when `w < 1024` and as `largeTablet` otherwise,
independently of the height (hence of which dimension is larger). -/
theorem c2_tablet_split_orientation_invariant (w h : ℚ) (hmin : 768 ≤ min w h) :
    getDeviceType ⟨w, h⟩ none = (if w < 1024 then DeviceType.tablet else .largeTablet) := by
  rw [getDeviceType_none_eq, if_neg (not_lt.mpr hmin)]

/-- Witness for C2 at the concrete viewports 800 × 1024 and 1024 × 800. -/
theorem c2_tablet_split_orientation_invariant_witness :
    (768 : ℚ) ≤ min 800 1024 ∧ (768 : ℚ) ≤ min 1024 800 ∧
    getDeviceType ⟨800, 1024⟩ none
      = (if (800 : ℚ) < 1024 then DeviceType.tablet else .largeTablet) ∧
    getDeviceType ⟨1024, 800⟩ none
      = (if (1024 : ℚ) < 1024 then DeviceType.tablet else .largeTablet) :=
  ⟨by norm_num, by norm_num,
    c2_tablet_split_orientation_invariant 800 1024 (by norm_num),
    c2_tablet_split_orientation_invariant 1024 800 (by norm_num)⟩

/-- Claim C3 (code bug): at the tablet viewport 800 × 1024 the source's
`getAdaptivePadding` evaluates `wp('8%')`, whose string percentage makes
the whole pipeline NaN for every pixel ratio — not the 8%-of-width pixel
value (64) that the spec states. -/
theorem c3_getAdaptivePadding_nan_at_tablet :
    ∀ pr : ℚ, getAdaptivePadding pr ⟨800, 1024⟩ = JSNum.nan := fun _ => rfl

/-- Claim C4: at the reference width 640 the font scale is 1, so `rf`
returns the (integer) base size unchanged on iOS and the base size minus 2
on the other platform, for every pixel ratio ≥ 1. -/
theorem c4_rf_identity_at_reference_width (pr : ℚ) (n : ℤ) (h : ℚ) (hpr : 1 ≤ pr) :
    rf pr true ⟨640, h⟩ (n : ℚ) = n ∧ rf pr false ⟨640, h⟩ (n : ℚ) = n - 2 := by
  have hbase : (n : ℚ) * ((640 : ℚ) / 640) = (n : ℚ) := by norm_num
  constructor
  · show jsRound (roundToNearestPixel pr ((n : ℚ) * ((640 : ℚ) / 640))) = n
    rw [hbase]
    exact jsRound_intCast_rtp pr hpr n
  · show jsRound (roundToNearestPixel pr ((n : ℚ) * ((640 : ℚ) / 640))) - 2 = n - 2
    rw [hbase, jsRound_intCast_rtp pr hpr n]

/-- Witness for C4: `rf(28)` at width 640 and pixel ratio 2 gives 28 on
iOS and 26 on the offset platform. -/
theorem c4_rf_identity_at_reference_width_witness :
    (1 : ℚ) ≤ 2 ∧ rf 2 true ⟨640, 360⟩ ((28 : ℤ) : ℚ) = 28 ∧
      rf 2 false ⟨640, 360⟩ ((28 : ℤ) : ℚ) = 26 := by
  have h := c4_rf_identity_at_reference_width 2 28 360 (by norm_num)
  exact ⟨by norm_num, h.1, by rw [h.2]; decide⟩

/-- Claim C5: for a fixed width `w`, any two heights that keep
`min(w, h) < 768` produce the same phone class, and that class is
determined by `w` alone against the 360 and 400 thresholds. -/
theorem c5_phone_class_depends_only_on_width (w h₁ h₂ : ℚ)
    (hm1 : min w h₁ < 768) (hm2 : min w h₂ < 768) :
    getDeviceType ⟨w, h₁⟩ none = getDeviceType ⟨w, h₂⟩ none ∧
    getDeviceType ⟨w, h₁⟩ none =
      (if w < 360 then DeviceType.smallPhone
       else if w < 400 then .mediumPhone else .largePhone) := by
  rw [getDeviceType_none_eq, getDeviceType_none_eq, if_pos hm1, if_pos hm2]
  exact ⟨rfl, rfl⟩

/-- Witness for C5 at width 390 with heights 700 and 500. -/
theorem c5_phone_class_depends_only_on_width_witness :
    min (390 : ℚ) 700 < 768 ∧ min (390 : ℚ) 500 < 768 ∧
    (getDeviceType ⟨390, 700⟩ none = getDeviceType ⟨390, 500⟩ none ∧
      getDeviceType ⟨390, 700⟩ none =
        (if (390 : ℚ) < 360 then DeviceType.smallPhone
         else if (390 : ℚ) < 400 then .mediumPhone else .largePhone)) :=
  ⟨by norm_num, by norm_num,
    c5_phone_class_depends_only_on_width 390 700 500 (by norm_num) (by norm_num)⟩

/-- Claim C6: the column table is monotone: for a fixed device class,
landscape gives at least as many columns as portrait, and for a fixed
orientation the count is non-decreasing along the device-class order. -/
theorem c6_gridColumns_monotone :
    (∀ d : DeviceType, gridColumnsFor d false ≤ gridColumnsFor d true) ∧
    (∀ d₁ d₂ : DeviceType, deviceRank d₁ ≤ deviceRank d₂ →
      ∀ b : Bool, gridColumnsFor d₁ b ≤ gridColumnsFor d₂ b) := by
  constructor
  · intro d; cases d <;> decide
  · intro d₁ d₂ hle b
    revert hle
    cases d₁ <;> cases d₂ <;> cases b <;> decide

/-- Witness for C6: tablet columns are at most largeTablet columns in
landscape. -/
theorem c6_gridColumns_monotone_witness :
    deviceRank DeviceType.tablet ≤ deviceRank DeviceType.largeTablet ∧
    gridColumnsFor DeviceType.tablet true ≤ gridColumnsFor DeviceType.largeTablet true :=
  ⟨by decide, c6_gridColumns_monotone.2 DeviceType.tablet DeviceType.largeTablet (by decide) true⟩

/-- Claim C7: for every viewport (zero or negative dimensions included)
and every width override, `getGridColumns` returns a value in
{1, 2, 3, 4, 5}, hence at least 1. -/
theorem c7_gridColumns_range : ∀ (vp : Viewport) (ov : Option ℚ),
    1 ≤ getGridColumns vp ov ∧ getGridColumns vp ov ∈ ([1, 2, 3, 4, 5] : List Int) := by
  intro vp ov
  have hall : ∀ (d : DeviceType) (b : Bool),
      1 ≤ gridColumnsFor d b ∧ gridColumnsFor d b ∈ ([1, 2, 3, 4, 5] : List Int) := by
    intro d b; cases d <;> cases b <;> decide
  exact hall _ _

/-- Claim C8: the module-level `spacing` and `typography` objects are
computed once from the load-time viewport and keep those values across any
sequence of dimension changes. -/
theorem c8_spacing_typography_frozen :
    ∀ (pr : ℚ) (ios : Bool) (init : Viewport) (changes : List Viewport),
    (changes.foldl dimensionsChange (loadModule pr ios init)).spacing = spacing pr init ∧
    (changes.foldl dimensionsChange (loadModule pr ios init)).typography
      = typography pr ios init := by
  intro pr ios init changes
  exact foldl_dimensionsChange (loadModule pr ios init) changes

/-- Claim C9: `rf` applies no lower bound: on both platforms the result is
exactly the raw rounded formula, it is nonpositive (≤ −2 on the offset
platform) for every nonpositive base size, and `rf(0)` is exactly 0 on iOS
and −2 on the other platform. -/
theorem c9_rf_no_lower_bound (pr : ℚ) (vp : Viewport) (s : ℚ) (hpr : 0 < pr) (hs : s ≤ 0)
    (hw : 0 ≤ vp.width) :
    rf pr true vp s = jsRound (roundToNearestPixel pr (s * vp.width / 640)) ∧
    rf pr false vp s = jsRound (roundToNearestPixel pr (s * vp.width / 640)) - 2 ∧
    rf pr true vp 0 = 0 ∧ rf pr false vp 0 = -2 ∧
    rf pr true vp s ≤ 0 ∧ rf pr false vp s ≤ -2 := by
  have hx : s * (vp.width / 640) ≤ 0 :=
    mul_nonpos_of_nonpos_of_nonneg hs (div_nonneg hw (by norm_num))
  have hjr : jsRound (roundToNearestPixel pr (s * (vp.width / 640))) ≤ 0 :=
    jsRound_nonpos (rtp_nonpos pr hpr hx)
  have h00 : roundToNearestPixel pr (0 * (vp.width / 640)) = 0 := by
    rw [zero_mul]
    exact rtp_zero pr
  refine ⟨?_, ?_, ?_, ?_, ?_, ?_⟩
  · show jsRound (roundToNearestPixel pr (s * (vp.width / 640)))
        = jsRound (roundToNearestPixel pr (s * vp.width / 640))
    rw [mul_div_assoc]
  · show jsRound (roundToNearestPixel pr (s * (vp.width / 640))) - 2
        = jsRound (roundToNearestPixel pr (s * vp.width / 640)) - 2
    rw [mul_div_assoc]
  · show jsRound (roundToNearestPixel pr (0 * (vp.width / 640))) = 0
    rw [h00, jsRound_zero]
  · show jsRound (roundToNearestPixel pr (0 * (vp.width / 640))) - 2 = -2
    rw [h00, jsRound_zero]
    decide
  · exact hjr
  · show jsRound (roundToNearestPixel pr (s * (vp.width / 640))) - 2 ≤ -2
    omega

/-- Witness for C9 at pixel ratio 1, viewport 640 × 360, base sizes 0 and −1. -/
theorem c9_rf_no_lower_bound_witness :
    (0 : ℚ) < 1 ∧ (-1 : ℚ) ≤ 0 ∧ (0 : ℚ) ≤ (Viewport.mk 640 360).width ∧
    rf 1 true ⟨640, 360⟩ 0 = 0 ∧ rf 1 false ⟨640, 360⟩ 0 = -2 ∧
    rf 1 true ⟨640, 360⟩ (-1) ≤ 0 ∧ rf 1 false ⟨640, 360⟩ (-1) ≤ -2 := by
  have h := c9_rf_no_lower_bound 1 ⟨640, 360⟩ (-1) (by norm_num) (by norm_num) (by norm_num)
  exact ⟨by norm_num, by norm_num, by norm_num, h.2.2.1, h.2.2.2.1, h.2.2.2.2.1, h.2.2.2.2.2⟩

/-- Claim C10: every field of the load-time `spacing` object is NaN
(the `wp` calls receive percentage strings), and the same string-argument
pattern makes every `getAdaptivePadding` result NaN on every viewport. -/
theorem c10_spacing_fields_nan : ∀ (pr : ℚ) (ios : Bool) (vp : Viewport),
    (loadModule pr ios vp).spacing = ⟨.nan, .nan, .nan, .nan, .nan⟩ ∧
    (∀ vp2 : Viewport, getAdaptivePadding pr vp2 = .nan) := by
  intro pr ios vp
  refine ⟨rfl, fun vp2 => ?_⟩
  unfold getAdaptivePadding
  split <;> rfl
